import Mathlib

/-!
Verification of scripts/migrate_registry.py.

The script applies four ordered regex substitutions (Python re.sub) to the
text of a C source file, then a thin command-line entry point reads a file,
rewrites it in place and prints a status line.

We shallowly embed the relevant fragment of Python's regex engine: the four
patterns only use literals, character-class plus (greedy, with
backtracking), optional groups (greedy) and capture groups, and the
replacement templates only use literal text and back-references.  Matching
is modelled in continuation-passing style so that the backtracking order of
the Python engine (leftmost match, greedy quantifiers trying longest first,
optional groups trying the present branch first) is reproduced exactly.
Strings are modelled as lists of characters; the `\s` class is the exact
set of codepoints Python's engine matches for str patterns (U+0009 to
U+000D, U+001C to U+0020, U+0085, U+00A0 and the Unicode space and line
separator characters).
-/

set_option maxRecDepth 40000

namespace Migrate

/-- Capture groups: a total map from group number to captured text
(unmatched groups are the empty string, as in Python 3.5+ substitution). -/
def Groups : Type := Nat → List Char

/-- The empty group assignment. -/
def g0 : Groups := fun _ => []

/-- Record a captured group. -/
def setGrp (g : Groups) (n : Nat) (v : List Char) : Groups :=
  fun m => if m = n then v else g m

/-- Regular expressions, restricted to the constructs that appear in the
four patterns of migrate_registry.py. -/
inductive RE where
  | lit : List Char → RE
  | plusCls : (Char → Bool) → RE
  | grp : Nat → RE → RE
  | opt : RE → RE
  | seq : RE → RE → RE

/-- Result of a match: remaining input after the match, and the groups. -/
def MRes : Type := Option (List Char × Groups)

/-- Continuation used by the matcher. -/
def Cont : Type := List Char → Groups → MRes

/-- Match a literal: consume it from the front of the input or fail. -/
def matchLit : List Char → List Char → Groups → Cont → MRes
  | [], s, g, k => k s g
  | _ :: _, [], _, _ => none
  | c :: l, d :: s, g, k => if c = d then matchLit l s g k else none

/-- Backtracking for a greedy class-plus: `run` is the reversed part of the
maximal run still consumed; try the continuation, then give back one
character at a time.  Fails when the run becomes empty (a plus must consume
at least one character). -/
def plusAux : List Char → List Char → Groups → Cont → MRes
  | [], _, _, _ => none
  | x :: xs, rest, g, k =>
    match k rest g with
    | some r => some r
    | none => plusAux xs (x :: rest) g k

/-- The matcher, in continuation-passing style.  Alternatives are tried in
the priority order of the Python engine. -/
def matchRE : RE → List Char → Groups → Cont → MRes
  | .lit l, s, g, k => matchLit l s g k
  | .plusCls p, s, g, k => plusAux (s.takeWhile p).reverse (s.dropWhile p) g k
  | .grp n r, s, g, k =>
    matchRE r s g (fun s' g' => k s' (setGrp g' n (s.take (s.length - s'.length))))
  | .opt r, s, g, k =>
    match matchRE r s g k with
    | some v => some v
    | none => k s g
  | .seq a b, s, g, k => matchRE a s g (fun s' g' => matchRE b s' g' k)

/-- Attempt to match a pattern at the start of `s`. -/
def runMatch (r : RE) (s : List Char) : MRes :=
  matchRE r s g0 (fun rem g => some (rem, g))

/-- One item of a substitution template: literal text or a group
back-reference. -/
inductive TmplItem where
  | lit : List Char → TmplItem
  | ref : Nat → TmplItem

/-- Instantiate a template with the captured groups. -/
def applyTmpl : List TmplItem → Groups → List Char
  | [], _ => []
  | .lit s :: t, g => s ++ applyTmpl t g
  | .ref n :: t, g => g n ++ applyTmpl t g

/-- Fuel-indexed global substitution: scan left to right; at each position
attempt a match; on success emit the instantiated template and continue
after the matched text (the replacement itself is not rescanned), otherwise
copy one character.  This is Python's re.sub for patterns that cannot match
the empty string, which holds for all four patterns of the script. -/
def subAllF (r : RE) (t : List TmplItem) : Nat → List Char → List Char
  | _, [] => []
  | 0, s => s
  | n + 1, c :: rest =>
    match runMatch r (c :: rest) with
    | some (rem, g) =>
      if rem.length < rest.length + 1 then applyTmpl t g ++ subAllF r t n rem
      else c :: subAllF r t n rest
    | none => c :: subAllF r t n rest

/-- Global substitution (re.sub with count=0). -/
def subAll (r : RE) (t : List TmplItem) (s : List Char) : List Char :=
  subAllF r t s.length s

/-- The `\s` class of Python's regex engine for str patterns: the
characters U+0009 to U+000D, U+001C to U+0020, U+0085, U+00A0, U+1680,
U+2000 to U+200A, U+2028, U+2029, U+202F, U+205F and U+3000. -/
def isWsChar (c : Char) : Bool :=
  ('\x09' ≤ c && c ≤ '\x0d') || ('\x1c' ≤ c && c ≤ '\x20') || c = '\u0085' ||
    c = '\u00a0' || c = '\u1680' || ('\u2000' ≤ c && c ≤ '\u200a') || c = '\u2028' ||
    c = '\u2029' || c = '\u202f' || c = '\u205f' || c = '\u3000'

/-- Shorthand for the `(\s+)` capture groups. -/
def wsP : RE := .plusCls isWsChar

/-- Pattern 1 of the script:
`(/\* Load registry \*/\s+)?workflow_registry_t\* registry = workflow_registry_create\("[^"]+"\);` -/
def pattern1 : RE :=
  .seq (.opt (.grp 1 (.seq (.lit "/* Load registry */".data) wsP)))
    (.seq (.lit "workflow_registry_t* registry = workflow_registry_create(\"".data)
      (.seq (.plusCls (fun c => c ≠ '\"')) (.lit "\");".data)))

/-- Replacement 1 of the script (a fixed block, no back-references). -/
def replacement1 : List Char :=
  ("/* Use shared registry with mutex protection */\n    pthread_mutex_lock(&g_api_daemon->workflow_registry_lock);\n\n    workflow_registry_t* registry = g_api_daemon->workflow_registry;").data

/-- Template form of replacement 1. -/
def tmpl1 : List TmplItem := [.lit replacement1]

/-- Pattern 2 of the script:
`if \(!registry\) \{(\s+)http_response_set_error\(resp, HTTP_STATUS_SERVER_ERROR, "Failed to create registry"\);(\s+)return E_SYSTEM_MEMORY;(\s+)\}` -/
def pattern2 : RE :=
  .seq (.lit "if (!registry) \x7b".data)
    (.seq (.grp 1 wsP)
      (.seq (.lit "http_response_set_error(resp, HTTP_STATUS_SERVER_ERROR, \"Failed to create registry\");".data)
        (.seq (.grp 2 wsP)
          (.seq (.lit "return E_SYSTEM_MEMORY;".data)
            (.seq (.grp 3 wsP) (.lit "\x7d".data))))))

/-- Replacement 2 of the script: note that it back-references group 1 three
times and group 3 once; group 2 is captured by the pattern but never used. -/
def tmpl2 : List TmplItem :=
  [.lit "if (!registry) \x7b".data, .ref 1,
   .lit "pthread_mutex_unlock(&g_api_daemon->workflow_registry_lock);".data, .ref 1,
   .lit "http_response_set_error(resp, HTTP_STATUS_SERVER_ERROR, \"Registry not initialized\");".data, .ref 1,
   .lit "return E_INVALID_STATE;".data, .ref 3,
   .lit "\x7d".data]

/-- Pattern 3 of the script (the load-and-check block, with two optional
trailing parts). -/
def pattern3 : RE :=
  .seq (.lit "int result = workflow_registry_load(registry);".data)
    (.seq (.grp 1 wsP)
      (.seq (.lit "if (result != ARGO_SUCCESS && result != E_SYSTEM_FILE) \x7b".data)
        (.seq (.grp 2 wsP)
          (.seq (.lit "workflow_registry_destroy(registry);".data)
            (.seq (.grp 3 wsP)
              (.seq (.lit "http_response_set_error(".data)
                (.seq (.plusCls (fun c => c ≠ ')'))
                  (.seq (.lit ");".data)
                    (.seq (.grp 4 wsP)
                      (.seq (.lit "return result;".data)
                        (.seq (.grp 5 wsP)
                          (.seq (.lit "\x7d".data)
                            (.seq (.grp 6 wsP)
                              (.seq (.opt (.grp 7 (.lit "/* Cleanup dead workflows after loading */".data)))
                                (.seq (.grp 8 wsP)
                                  (.opt (.grp 9 (.lit "workflow_registry_cleanup_dead_workflows(registry);".data))))))))))))))))))

/-- Replacement 3 of the script: the empty string. -/
def tmpl3 : List TmplItem := []

/-- Pattern 4 of the script: the literal destroy call. -/
def pattern4 : RE := .lit "workflow_registry_destroy(registry);".data

/-- Replacement 4 of the script: the literal unlock call. -/
def tmpl4 : List TmplItem :=
  [.lit "pthread_mutex_unlock(&g_api_daemon->workflow_registry_lock);".data]

/-- The four substitution passes of migrate_endpoint, in source order. -/
def migrateL (s : List Char) : List Char :=
  subAll pattern4 tmpl4 (subAll pattern3 tmpl3 (subAll pattern2 tmpl2 (subAll pattern1 tmpl1 s)))

/-- The migrate_endpoint function of the script, on strings. -/
def migrate_endpoint (content : String) : String :=
  ⟨migrateL content.data⟩

/-- Observable outcome of one invocation of the command-line entry point. -/
structure MainResult where
  stdout : List String
  exitCode : Nat
  fileRead : Bool
  written : Option String
  deriving DecidableEq, Repr

/-- The `__main__` block of the script: `prog` is `sys.argv[0]`, `args` is
the rest of `sys.argv`, and `content` is the text of the file named by the
single argument, when there is one. -/
def mainModel (prog : String) (args : List String) (content : String) : MainResult :=
  match args with
  | [path] =>
    { stdout := ["Migrated " ++ path], exitCode := 0, fileRead := true,
      written := some (migrate_endpoint content) }
  | _ =>
    { stdout := ["Usage: " ++ prog ++ " <file>"], exitCode := 1, fileRead := false,
      written := none }

/-- Does a pattern match at some position of `s` (i.e. at the start of some
suffix)?  `occFree r s` says it matches nowhere. -/
def occFree (r : RE) (s : List Char) : Bool :=
  s.tails.all fun s' => s'.isEmpty || (runMatch r s').isNone

/-- The minimal end-to-end document of the specification. -/
def specDoc : String :=
  "workflow_registry_t* registry = workflow_registry_create(\"path\");\nif (!registry) \x7b\n    http_response_set_error(resp, HTTP_STATUS_SERVER_ERROR, \"Failed to create registry\");\n    return E_SYSTEM_MEMORY;\n\x7d\nworkflow_registry_destroy(registry);\n"

/-- The expected migrated form of `specDoc`: line 1 becomes the fixed
lock/reassign block, the null-check body becomes unlock + new message + new
error code, and the destroy call becomes an unlock call. -/
def specOut : String :=
  "/* Use shared registry with mutex protection */\n    pthread_mutex_lock(&g_api_daemon->workflow_registry_lock);\n\n    workflow_registry_t* registry = g_api_daemon->workflow_registry;\nif (!registry) \x7b\n    pthread_mutex_unlock(&g_api_daemon->workflow_registry_lock);\n    http_response_set_error(resp, HTTP_STATUS_SERVER_ERROR, \"Registry not initialized\");\n    return E_INVALID_STATE;\n\x7d\npthread_mutex_unlock(&g_api_daemon->workflow_registry_lock);\n"

/-- Rule D's replacement text (the unlock call). -/
def ruleDText : List Char :=
  "pthread_mutex_unlock(&g_api_daemon->workflow_registry_lock);".data

/-- The fixed text of the creation-call declaration up to the opening quote
of the argument. -/
def declHead : List Char :=
  "workflow_registry_t* registry = workflow_registry_create(\"".data

/-- A creation-call declaration whose quoted argument is `arg`. -/
def declL (arg : List Char) : List Char :=
  declHead ++ (arg ++ "\");".data)

/-- A run of `n` spaces. -/
def spacesN (n : Nat) : List Char :=
  List.replicate n ' '

/-- Rule C's block up to and including the closing brace, with both
optional trailing parts absent. -/
def blockNC : List Char :=
  "int result = workflow_registry_load(registry);".data ++
    ("\n    ".data ++
      ("if (result != ARGO_SUCCESS && result != E_SYSTEM_FILE) \x7b".data ++
        ("\n        ".data ++
          ("workflow_registry_destroy(registry);".data ++
            ("\n        ".data ++
              ("http_response_set_error(".data ++
                ("resp, HTTP_STATUS_SERVER_ERROR, \"Failed to load registry\"".data ++
                  (");".data ++
                    ("\n        ".data ++
                      ("return result;".data ++ ("\n    ".data ++ "\x7d".data)))))))))))

/-- The groups captured by pattern 3 on `blockNC` (groups 1 to 5). -/
def gBaseNC : Groups :=
  setGrp
    (setGrp (setGrp (setGrp (setGrp g0 1 "\n    ".data) 2 "\n        ".data) 3 "\n        ".data)
      4 "\n        ".data)
    5 "\n    ".data

/-- Rule C's full block, verbatim, with both optional parts present (the
trailing cleanup comment and the cleanup call). -/
def blockC : List Char :=
  "int result = workflow_registry_load(registry);\n    if (result != ARGO_SUCCESS && result != E_SYSTEM_FILE) \x7b\n        workflow_registry_destroy(registry);\n        http_response_set_error(resp, HTTP_STATUS_SERVER_ERROR, \"Failed to load registry\");\n        return result;\n    \x7d\n\n    /* Cleanup dead workflows after loading */\n    workflow_registry_cleanup_dead_workflows(registry);".data

/-- Surrounding context used to witness the frame property of Rule C. -/
def c6pre : List Char := "/* x */\n".data

/-- Surrounding context used to witness the frame property of Rule C. -/
def c6post : List Char := "\nreturn ARGO_SUCCESS;\n".data

/-- Rule B's null-check error block with whitespace spans `w1`, `w2`, `w3`
in the three captured positions. -/
def blockB (w1 w2 w3 : List Char) : List Char :=
  "if (!registry) \x7b".data ++
    (w1 ++
      ("http_response_set_error(resp, HTTP_STATUS_SERVER_ERROR, \"Failed to create registry\");".data ++
        (w2 ++ ("return E_SYSTEM_MEMORY;".data ++ (w3 ++ "\x7d".data)))))

/-- What Rule B actually produces for a matched block: span `u1` is used
after the opening brace, after the inserted unlock line and before the
return line, and span `u3` before the closing brace. -/
def replB (u1 u3 : List Char) : List Char :=
  "if (!registry) \x7b".data ++
    (u1 ++
      ("pthread_mutex_unlock(&g_api_daemon->workflow_registry_lock);".data ++
        (u1 ++
          ("http_response_set_error(resp, HTTP_STATUS_SERVER_ERROR, \"Registry not initialized\");".data ++
            (u1 ++ ("return E_INVALID_STATE;".data ++ (u3 ++ "\x7d".data)))))))

/-- The first character of `s` fails the class `p` (vacuously true for the
empty list): the stopping condition of a greedy class run. -/
def headNot (p : Char → Bool) : List Char → Prop
  | [] => True
  | c :: _ => p c = false

/-- Ranges of characters allowed in C identifiers, used to state that the
rewrite rules only fire on the variable name `registry`. -/
def isIdentChar (c : Char) : Bool :=
  c.isAlphanum || c = '_'

end Migrate

namespace Migrate

theorem takeWhile_app {p : Char → Bool} {w s : List Char}
    (hw : ∀ c ∈ w, p c = true) (hs : headNot p s) :
    (w ++ s).takeWhile p = w := by
  induction w with
  | nil =>
    cases s with
    | nil => rfl
    | cons c t => simpa [List.takeWhile_cons] using hs
  | cons c w ih =>
    have hc : p c = true := hw c (by simp)
    simp only [List.cons_append, List.takeWhile_cons, hc, if_true]
    exact congrArg (c :: ·) (ih fun d hd => hw d (by simp [hd]))

theorem dropWhile_app {p : Char → Bool} {w s : List Char}
    (hw : ∀ c ∈ w, p c = true) (hs : headNot p s) :
    (w ++ s).dropWhile p = s := by
  induction w with
  | nil =>
    cases s with
    | nil => rfl
    | cons c t =>
      have hc : p c = false := hs
      simp [List.dropWhile_cons, hc]
  | cons c w ih =>
    have hc : p c = true := hw c (by simp)
    simp only [List.cons_append, List.dropWhile_cons, hc, if_true]
    exact ih fun d hd => hw d (by simp [hd])

theorem matchLit_app (l s : List Char) (g : Groups) (k : Cont) :
    matchLit l (l ++ s) g k = k s g := by
  induction l with
  | nil => rfl
  | cons c l ih => simp [matchLit, ih]

theorem matchLit_eq_none {l s : List Char} (h : ¬ l <+: s) (g : Groups) (k : Cont) :
    matchLit l s g k = none := by
  induction l generalizing s with
  | nil => exact absurd (List.nil_prefix) h
  | cons c l ih =>
    cases s with
    | nil => rfl
    | cons d s =>
      by_cases hcd : c = d
      · subst hcd
        have : ¬ l <+: s := fun hp => h (List.cons_prefix_cons.2 ⟨rfl, hp⟩)
        simp [matchLit, ih this]
      · simp [matchLit, hcd]

theorem matchLit_some_pre {l s : List Char} {g : Groups} {k : Cont} {v : List Char × Groups}
    (h : matchLit l s g k = some v) : l <+: s := by
  by_contra hn
  rw [matchLit_eq_none hn] at h
  exact Option.noConfusion h

theorem matchRE_lit (l s : List Char) (g : Groups) (k : Cont) :
    matchRE (.lit l) s g k = matchLit l s g k := rfl

theorem matchRE_seq (a b : RE) (s : List Char) (g : Groups) (k : Cont) :
    matchRE (.seq a b) s g k = matchRE a s g (fun s' g' => matchRE b s' g' k) := rfl

theorem matchRE_grp (n : Nat) (r : RE) (s : List Char) (g : Groups) (k : Cont) :
    matchRE (.grp n r) s g k =
      matchRE r s g (fun s' g' => k s' (setGrp g' n (s.take (s.length - s'.length)))) := rfl

theorem matchRE_opt_of_none {r : RE} {s : List Char} {g : Groups} {k : Cont}
    (h : matchRE r s g k = none) : matchRE (.opt r) s g k = k s g := by
  simp [matchRE, h]

theorem matchRE_opt_of_some {r : RE} {s : List Char} {g : Groups} {k : Cont}
    {v : List Char × Groups} (h : matchRE r s g k = some v) :
    matchRE (.opt r) s g k = some v := by
  simp [matchRE, h]

theorem matchRE_plus_run (p : Char → Bool) (s : List Char) (g : Groups) (k : Cont) :
    matchRE (.plusCls p) s g k = plusAux (s.takeWhile p).reverse (s.dropWhile p) g k := rfl

theorem plus_full {p : Char → Bool} {w s : List Char} {g : Groups} {k : Cont}
    {v : List Char × Groups} (hw : ∀ c ∈ w, p c = true) (hnz : w ≠ [])
    (hs : headNot p s) (hk : k s g = some v) :
    matchRE (.plusCls p) (w ++ s) g k = some v := by
  rw [matchRE_plus_run, takeWhile_app hw hs, dropWhile_app hw hs]
  obtain ⟨x, xs, hx⟩ : ∃ x xs, w.reverse = x :: xs := by
    cases hr : w.reverse with
    | nil => exact absurd (by simpa using congrArg List.reverse hr) hnz
    | cons x xs => exact ⟨x, xs, rfl⟩
  rw [hx]
  simp [plusAux, hk]

theorem plus_none_of_head {p : Char → Bool} {s : List Char} (hs : headNot p s)
    (g : Groups) (k : Cont) : matchRE (.plusCls p) s g k = none := by
  cases s with
  | nil => rfl
  | cons c t =>
    have hc : p c = false := hs
    rw [matchRE_plus_run]
    simp [List.takeWhile_cons, hc, plusAux]

theorem plus_backtrack {p : Char → Bool} {w s : List Char} {z c : Char} {g : Groups}
    {k : Cont} {v : List Char × Groups}
    (hw : ∀ d ∈ w, p d = true) (hz : p z = true) (hc : p c = false) (hwnz : w ≠ [])
    (h1 : k (c :: s) g = none) (h2 : k (z :: c :: s) g = some v) :
    matchRE (.plusCls p) ((w ++ [z]) ++ c :: s) g k = some v := by
  have hall : ∀ d ∈ w ++ [z], p d = true := by
    intro d hd
    rcases List.mem_append.1 hd with h | h
    · exact hw d h
    · simp at h; subst h; exact hz
  rw [matchRE_plus_run, takeWhile_app hall (by exact hc), dropWhile_app hall (by exact hc)]
  obtain ⟨x, xs, hx⟩ : ∃ x xs, w.reverse = x :: xs := by
    cases hr : w.reverse with
    | nil => exact absurd (by simpa using congrArg List.reverse hr) hwnz
    | cons x xs => exact ⟨x, xs, rfl⟩
  rw [List.reverse_append, List.reverse_singleton, List.singleton_append, hx]
  simp [plusAux, h1, h2]

theorem plus_one_fail {p : Char → Bool} {s : List Char} {z c : Char} {g : Groups}
    {k : Cont} (hz : p z = true) (hc : p c = false) (h1 : k (c :: s) g = none) :
    matchRE (.plusCls p) (z :: c :: s) g k = none := by
  rw [matchRE_plus_run]
  simp [List.takeWhile_cons, List.dropWhile_cons, hz, hc, plusAux, h1]

theorem p2_some_pre {s : List Char} {g : Groups} {k : Cont} {v : List Char × Groups}
    (h : matchRE pattern2 s g k = some v) : "if (!registry) \x7b".data <+: s :=
  matchLit_some_pre (by rw [pattern2, matchRE_seq, matchRE_lit] at h; exact h)

theorem p3_some_pre {s : List Char} {g : Groups} {k : Cont} {v : List Char × Groups}
    (h : matchRE pattern3 s g k = some v) :
    "int result = workflow_registry_load(registry);".data <+: s :=
  matchLit_some_pre (by rw [pattern3, matchRE_seq, matchRE_lit] at h; exact h)

theorem p4_some_pre {s : List Char} {g : Groups} {k : Cont} {v : List Char × Groups}
    (h : matchRE pattern4 s g k = some v) :
    "workflow_registry_destroy(registry);".data <+: s :=
  matchLit_some_pre (by rw [pattern4, matchRE_lit] at h; exact h)

theorem p1_some_pre {s : List Char} {g : Groups} {k : Cont} {v : List Char × Groups}
    (h : matchRE pattern1 s g k = some v) :
    "/* Load registry */".data <+: s ∨
      "workflow_registry_t* registry = workflow_registry_create(\"".data <+: s := by
  rw [pattern1, matchRE_seq] at h
  cases hop : matchRE (.grp 1 (.seq (.lit "/* Load registry */".data) wsP)) s g
      (fun s' g' =>
        matchRE (.seq (.lit "workflow_registry_t* registry = workflow_registry_create(\"".data)
          (.seq (.plusCls fun c => c ≠ '\"') (.lit "\");".data))) s' g' k) with
  | some w =>
    left
    rw [matchRE_grp, matchRE_seq, matchRE_lit] at hop
    exact matchLit_some_pre hop
  | none =>
    right
    rw [matchRE_opt_of_none hop, matchRE_seq, matchRE_lit] at h
    exact matchLit_some_pre h

theorem subAllF_fuel (r : RE) (t : List TmplItem) :
    ∀ n s, s.length ≤ n → subAllF r t n s = subAllF r t s.length s
  | n, [], _ => by cases n <;> rfl
  | 0, c :: rest, h => by simp at h
  | n + 1, c :: rest, h => by
    have hr : rest.length ≤ n := by simpa using h
    show subAllF r t (n + 1) (c :: rest) = subAllF r t (rest.length + 1) (c :: rest)
    cases hm : runMatch r (c :: rest) with
    | none =>
      simp only [subAllF, hm]
      rw [subAllF_fuel r t n rest hr]
    | some rg =>
      obtain ⟨rem, g⟩ := rg
      simp only [subAllF, hm]
      by_cases hl : rem.length < rest.length + 1
      · simp only [hl, if_true]
        rw [subAllF_fuel r t n rem (le_trans (Nat.lt_succ_iff.1 hl) hr),
          subAllF_fuel r t rest.length rem (Nat.lt_succ_iff.1 hl)]
      · simp only [hl, if_false]
        rw [subAllF_fuel r t n rest hr]
termination_by n _ _ => n
decreasing_by all_goals omega

theorem subAll_cons_none {r : RE} {t : List TmplItem} {c : Char} {rest : List Char}
    (h : runMatch r (c :: rest) = none) :
    subAll r t (c :: rest) = c :: subAll r t rest := by
  show subAllF r t (rest.length + 1) (c :: rest) = c :: subAllF r t rest.length rest
  simp [subAllF, h]

theorem subAll_cons_match {r : RE} {t : List TmplItem} {c : Char} {rest rem : List Char}
    {g : Groups} (h : runMatch r (c :: rest) = some (rem, g))
    (hl : rem.length < rest.length + 1) :
    subAll r t (c :: rest) = applyTmpl t g ++ subAll r t rem := by
  show subAllF r t (rest.length + 1) (c :: rest) = applyTmpl t g ++ subAllF r t rem.length rem
  simp only [subAllF, h, hl, if_true]
  rw [subAllF_fuel r t rest.length rem (Nat.lt_succ_iff.1 hl)]

theorem subAll_id {r : RE} {t : List TmplItem} {s : List Char}
    (h : ∀ s' ∈ s.tails, s' ≠ [] → runMatch r s' = none) : subAll r t s = s := by
  induction s with
  | nil => rfl
  | cons c rest ih =>
    rw [subAll_cons_none (h (c :: rest) (by simp [List.mem_tails]) (by simp))]
    exact congrArg (c :: ·) (ih fun s' hs' hne =>
      h s' ((List.mem_tails _ _).2 (((List.mem_tails _ _).1 hs').trans (List.suffix_cons c rest))) hne)

theorem subAll_skip {r : RE} {t : List TmplItem} {x y : List Char}
    (h : ∀ x' ∈ x.tails, x' ≠ [] → runMatch r (x' ++ y) = none) :
    subAll r t (x ++ y) = x ++ subAll r t y := by
  induction x with
  | nil => rfl
  | cons c x' ih =>
    rw [List.cons_append,
      subAll_cons_none (by simpa using h (c :: x') (by simp [List.mem_tails]) (by simp))]
    exact congrArg (c :: ·) (ih fun z hz hne =>
      h z ((List.mem_tails _ _).2 (((List.mem_tails _ _).1 hz).trans (List.suffix_cons c x'))) hne)

theorem occFree_sound {r : RE} {s : List Char} (h : occFree r s = true) :
    ∀ s' ∈ s.tails, s' ≠ [] → runMatch r s' = none := by
  intro s' hs' hne
  have := (List.all_eq_true.1 h) s' hs'
  rcases Bool.or_eq_true_iff.1 this with h1 | h1
  · exact absurd (List.isEmpty_iff.1 h1) hne
  · exact Option.isNone_iff_eq_none.1 h1

theorem subAll_of_occFree {r : RE} {t : List TmplItem} {s : List Char}
    (h : occFree r s = true) : subAll r t s = s :=
  subAll_id (occFree_sound h)

theorem suffix_append_cases {s' x y : List Char} (h : s' <:+ x ++ y) :
    s' <:+ y ∨ ∃ x', x' <:+ x ∧ x' ≠ [] ∧ s' = x' ++ y := by
  induction x with
  | nil => left; simpa using h
  | cons c x ih =>
    rw [List.cons_append, List.suffix_cons_iff] at h
    rcases h with rfl | h
    · right; exact ⟨c :: x, List.suffix_refl _, by simp, rfl⟩
    · rcases ih h with h2 | ⟨x', hx', hne, rfl⟩
      · left; exact h2
      · right; exact ⟨x', hx'.trans (List.suffix_cons c x), hne, rfl⟩

/-- Decide whether a needle disagrees with a chunk somewhere inside their
common range; if it does, the needle is not a prefix of the chunk followed
by anything. -/
def misAt : List Char → List Char → Bool
  | [], _ => false
  | _ :: _, [] => false
  | c :: l, d :: s => if c = d then misAt l s else true

theorem misAt_sound : ∀ {needle d : List Char}, misAt needle d = true →
    ∀ z, ¬ needle <+: d ++ z
  | [], _, h, _ => by simp [misAt] at h
  | _ :: _, [], h, _ => by simp [misAt] at h
  | c :: l, d :: s, h, z => by
    intro hp
    rw [List.cons_append] at hp
    rcases List.cons_prefix_cons.1 hp with ⟨rfl, hp'⟩
    rw [misAt, if_pos rfl] at h
    exact misAt_sound h z hp'

/-- A needle consisting of a run of identifier characters followed by a
non-identifier character is never a prefix of an identifier run followed by
a (different) non-identifier character, unless the two runs coincide and
the two following characters coincide. -/
theorem identChunk_refute :
    ∀ (pre id : List Char) {q c0 : Char} {nd rest : List Char},
      (∀ c ∈ pre, isIdentChar c = true) → (∀ c ∈ id, isIdentChar c = true) →
      isIdentChar q = false → isIdentChar c0 = false →
      (q ≠ c0 ∨ id ≠ pre) →
      ¬ ((pre ++ q :: nd) <+: (id ++ c0 :: rest))
  | [], [], q, c0, nd, rest, _, _, hq, hc0, hd => by
    intro hp
    rw [List.nil_append, List.nil_append] at hp
    have hqc : q = c0 := (List.cons_prefix_cons.1 hp).1
    rcases hd with hd | hd
    · exact hd hqc
    · exact hd rfl
  | [], c :: id', q, c0, nd, rest, _, hid, hq, hc0, hd => by
    intro hp
    rw [List.nil_append, List.cons_append] at hp
    have hqc : q = c := (List.cons_prefix_cons.1 hp).1
    have : isIdentChar c = true := hid c (by simp)
    rw [← hqc, hq] at this
    exact Bool.noConfusion this
  | a :: pre', [], q, c0, nd, rest, hpre, _, hq, hc0, hd => by
    intro hp
    rw [List.cons_append, List.nil_append] at hp
    have hac : a = c0 := (List.cons_prefix_cons.1 hp).1
    have : isIdentChar a = true := hpre a (by simp)
    rw [hac, hc0] at this
    exact Bool.noConfusion this
  | a :: pre', c :: id', q, c0, nd, rest, hpre, hid, hq, hc0, hd => by
    intro hp
    rw [List.cons_append, List.cons_append] at hp
    rcases List.cons_prefix_cons.1 hp with ⟨rfl, hp'⟩
    refine identChunk_refute pre' id' (fun d hd' => hpre d (by simp [hd']))
      (fun d hd' => hid d (by simp [hd'])) hq hc0 ?_ hp'
    rcases hd with hd | hd
    · exact Or.inl hd
    · exact Or.inr fun he => hd (by rw [he])

theorem take_consumed (w s : List Char) :
    (w ++ s).take ((w ++ s).length - s.length) = w := by
  rw [List.length_append, Nat.add_sub_cancel, List.take_left]

theorem wsP_run : wsP = RE.plusCls isWsChar := rfl

theorem plusAux_all_fail {p : Char → Bool} {g : Groups} {k : Cont}
    (hfk : ∀ x s', p x = true → k (x :: s') g = none) :
    ∀ (ys : List Char) (x : Char) (r : List Char), (∀ d ∈ ys, p d = true) → p x = true →
      plusAux ys (x :: r) g k = none
  | [], _, _, _, _ => rfl
  | y :: ys, x, r, hys, hx => by
    simp only [plusAux, hfk x r hx]
    exact plusAux_all_fail hfk ys y (x :: r) (fun d hd => hys d (by simp [hd]))
      (hys y (by simp))

theorem plus_det {p : Char → Bool} {w s : List Char} {g : Groups} {k : Cont}
    (hw : ∀ c ∈ w, p c = true) (hnz : w ≠ []) (hs : headNot p s)
    (hfk : ∀ x s', p x = true → k (x :: s') g = none) :
    matchRE (.plusCls p) (w ++ s) g k = k s g := by
  rw [matchRE_plus_run, takeWhile_app hw hs, dropWhile_app hw hs]
  obtain ⟨x, xs, hx⟩ : ∃ x xs, w.reverse = x :: xs := by
    cases hr : w.reverse with
    | nil => exact absurd (by simpa using congrArg List.reverse hr) hnz
    | cons x xs => exact ⟨x, xs, rfl⟩
  rw [hx]
  cases hk : k s g with
  | some v => simp [plusAux, hk]
  | none =>
    simp only [plusAux, hk]
    have hxw : x ∈ w := by
      rw [← List.mem_reverse, hx]; simp
    have hxsw : ∀ d ∈ xs, p d = true := by
      intro d hd
      exact hw d (by rw [← List.mem_reverse, hx]; simp [hd])
    exact plusAux_all_fail hfk xs x s hxsw (hw x hxw)

theorem plus_singleton {p : Char → Bool} {z : Char} {s : List Char} {g : Groups} {k : Cont}
    (hz : p z = true) (hs : headNot p s) :
    matchRE (.plusCls p) (z :: s) g k = k s g := by
  have h1 : (z :: s).takeWhile p = [z] := by
    rw [show (z :: s) = [z] ++ s from rfl, takeWhile_app (by simpa using hz) hs]
  have h2 : (z :: s).dropWhile p = s := by
    rw [show (z :: s) = [z] ++ s from rfl, dropWhile_app (by simpa using hz) hs]
  rw [matchRE_plus_run, h1, h2]
  cases hk : k s g with
  | some v => simp [plusAux, hk]
  | none => simp [plusAux, hk]

theorem grp_lit_none {n : Nat} {l s : List Char} (h : ¬ l <+: s) (g : Groups) (k : Cont) :
    matchRE (.grp n (.lit l)) s g k = none := by
  rw [matchRE_grp, matchRE_lit]
  exact matchLit_eq_none h _ _

theorem step_ws_lit {n : Nat} {L : List Char} {b : RE} {w s2 : List Char} {g : Groups}
    {k : Cont} (hw : ∀ c ∈ w, isWsChar c = true) (hnz : w ≠ []) (hLne : L ≠ [])
    (hLh : isWsChar L.headI = false) :
    matchRE (.seq (.grp n (.plusCls isWsChar)) (.seq (.lit L) b)) (w ++ (L ++ s2)) g k =
      matchRE b s2 (setGrp g n w) k := by
  cases L with
  | nil => exact absurd rfl hLne
  | cons h0 L' =>
    have h0ws : isWsChar h0 = false := by simpa using hLh
    have hfk : ∀ (x : Char) (s' : List Char) (g' : Groups), isWsChar x = true →
        matchRE (.seq (.lit (h0 :: L')) b) (x :: s') g' k = none := by
      intro x s' g' hx
      rw [matchRE_seq, matchRE_lit]
      refine matchLit_eq_none ?_ _ _
      intro hp
      have hhd := (List.cons_prefix_cons.1 hp).1
      rw [← hhd, h0ws] at hx
      exact Bool.noConfusion hx
    rw [matchRE_seq, matchRE_grp,
      plus_det hw hnz (show headNot isWsChar ((h0 :: L') ++ s2) from h0ws)
        (fun x s' hx => hfk x s' _ hx)]
    rw [take_consumed, matchRE_seq, matchRE_lit, matchLit_app]

theorem step_cls_lit {p : Char → Bool} {L : List Char} {b : RE} {w s2 : List Char}
    {g : Groups} {k : Cont} (hw : ∀ c ∈ w, p c = true) (hnz : w ≠ []) (hLne : L ≠ [])
    (hLh : p L.headI = false) :
    matchRE (.seq (.plusCls p) (.seq (.lit L) b)) (w ++ (L ++ s2)) g k =
      matchRE b s2 g k := by
  cases L with
  | nil => exact absurd rfl hLne
  | cons h0 L' =>
    have h0p : p h0 = false := by simpa using hLh
    have hfk : ∀ (x : Char) (s' : List Char), p x = true →
        matchRE (.seq (.lit (h0 :: L')) b) (x :: s') g k = none := by
      intro x s' hx
      rw [matchRE_seq, matchRE_lit]
      refine matchLit_eq_none ?_ _ _
      intro hp
      have hhd := (List.cons_prefix_cons.1 hp).1
      rw [← hhd, h0p] at hx
      exact Bool.noConfusion hx
    rw [matchRE_seq,
      plus_det hw hnz (show headNot p ((h0 :: L') ++ s2) from h0p)
        (fun x s' hx => hfk x s' hx)]
    rw [matchRE_seq, matchRE_lit, matchLit_app]

theorem p3_blockNC_reduce (tail2 : List Char) (k : Cont) :
    matchRE pattern3 (blockNC ++ tail2) g0 k =
      matchRE
        (.seq (.grp 6 (.plusCls isWsChar))
          (.seq (.opt (.grp 7 (.lit "/* Cleanup dead workflows after loading */".data)))
            (.seq (.grp 8 (.plusCls isWsChar))
              (.opt (.grp 9 (.lit "workflow_registry_cleanup_dead_workflows(registry);".data))))))
        tail2 gBaseNC k := by
  have hshape : blockNC ++ tail2 =
      "int result = workflow_registry_load(registry);".data ++
        ("\n    ".data ++
          ("if (result != ARGO_SUCCESS && result != E_SYSTEM_FILE) \x7b".data ++
            ("\n        ".data ++
              ("workflow_registry_destroy(registry);".data ++
                ("\n        ".data ++
                  ("http_response_set_error(".data ++
                    ("resp, HTTP_STATUS_SERVER_ERROR, \"Failed to load registry\"".data ++
                      (");".data ++
                        ("\n        ".data ++
                          ("return result;".data ++
                            ("\n    ".data ++ ("\x7d".data ++ tail2)))))))))))) := by
    simp [blockNC, List.append_assoc]
  rw [hshape, pattern3, wsP_run, matchRE_seq, matchRE_lit, matchLit_app,
    step_ws_lit (by decide) (by decide) (by decide) (by decide),
    step_ws_lit (by decide) (by decide) (by decide) (by decide),
    step_ws_lit (by decide) (by decide) (by decide) (by decide),
    step_cls_lit (by decide) (by decide) (by decide) (by decide),
    step_ws_lit (by decide) (by decide) (by decide) (by decide),
    step_ws_lit (by decide) (by decide) (by decide) (by decide)]
  rfl

theorem p3_tail_fail {c : Char} {rest : List Char} (hc : isWsChar c = false)
    (hcm : ¬ "/* Cleanup dead workflows after loading */".data <+: c :: rest)
    (g : Groups) (k : Cont) :
    matchRE
      (.seq (.opt (.grp 7 (.lit "/* Cleanup dead workflows after loading */".data)))
        (.seq (.grp 8 (.plusCls isWsChar))
          (.opt (.grp 9 (.lit "workflow_registry_cleanup_dead_workflows(registry);".data)))))
      (c :: rest) g k = none := by
  rw [matchRE_seq, matchRE_opt_of_none (grp_lit_none hcm _ _)]
  rw [matchRE_seq, matchRE_grp]
  exact plus_none_of_head (show headNot isWsChar (c :: rest) from hc) _ _

theorem p3_tail_backtrack {z c : Char} {rest : List Char} {g : Groups} {k : Cont}
    (hz : isWsChar z = true) (hc : isWsChar c = false)
    (hcall : ¬ "workflow_registry_cleanup_dead_workflows(registry);".data <+: c :: rest) :
    matchRE
      (.seq (.opt (.grp 7 (.lit "/* Cleanup dead workflows after loading */".data)))
        (.seq (.grp 8 (.plusCls isWsChar))
          (.opt (.grp 9 (.lit "workflow_registry_cleanup_dead_workflows(registry);".data)))))
      (z :: c :: rest) g k = k (c :: rest) (setGrp g 8 [z]) := by
  have hcm2 : ¬ "/* Cleanup dead workflows after loading */".data <+: z :: c :: rest := by
    intro hp
    have hhd := (List.cons_prefix_cons.1 hp).1
    rw [← hhd] at hz
    exact absurd hz (by decide)
  rw [matchRE_seq, matchRE_opt_of_none (grp_lit_none hcm2 _ _)]
  rw [matchRE_seq, matchRE_grp,
    plus_singleton hz (show headNot isWsChar (c :: rest) from hc)]
  rw [show (z :: c :: rest).take ((z :: c :: rest).length - (c :: rest).length) = [z] by simp]
  rw [matchRE_opt_of_none (grp_lit_none hcall _ _)]

theorem p3_match_blockNC (w : List Char) (z c : Char) (rest : List Char)
    (hw : ∀ d ∈ w, isWsChar d = true) (hz : isWsChar z = true) (hc : isWsChar c = false)
    (hwn : w ≠ [])
    (hcm : ¬ "/* Cleanup dead workflows after loading */".data <+: c :: rest)
    (hcall : ¬ "workflow_registry_cleanup_dead_workflows(registry);".data <+: c :: rest) :
    runMatch pattern3 (blockNC ++ (w ++ z :: c :: rest)) =
      some (c :: rest, setGrp (setGrp gBaseNC 6 w) 8 [z]) := by
  have hcap : ((w ++ [z]) ++ (c :: rest)).take
      (((w ++ [z]) ++ (c :: rest)).length - (z :: c :: rest).length) = w := by
    have hn : ((w ++ [z]) ++ (c :: rest)).length - (z :: c :: rest).length = w.length := by
      simp [List.length_append]
    rw [hn, List.append_assoc, List.take_left]
  rw [runMatch, p3_blockNC_reduce, matchRE_seq, matchRE_grp,
    show w ++ z :: c :: rest = (w ++ [z]) ++ (c :: rest) by simp]
  refine plus_backtrack hw hz hc hwn ?_ ?_
  · exact p3_tail_fail hc hcm _ _
  · beta_reduce
    rw [hcap, p3_tail_backtrack hz hc hcall]

theorem p3_nomatch_blockNC (z c : Char) (rest : List Char)
    (hz : isWsChar z = true) (hc : isWsChar c = false)
    (hcm : ¬ "/* Cleanup dead workflows after loading */".data <+: c :: rest) :
    runMatch pattern3 (blockNC ++ (z :: c :: rest)) = none := by
  rw [runMatch, p3_blockNC_reduce, matchRE_seq, matchRE_grp]
  exact plus_one_fail hz hc (p3_tail_fail hc hcm _ _)

theorem p3_nomatch_blockNC0 (c : Char) (rest : List Char) (hc : isWsChar c = false) :
    runMatch pattern3 (blockNC ++ (c :: rest)) = none := by
  rw [runMatch, p3_blockNC_reduce, matchRE_seq, matchRE_grp]
  exact plus_none_of_head (show headNot isWsChar (c :: rest) from hc) _ _

theorem p1_none {s : List Char}
    (h1 : ¬ "/* Load registry */".data <+: s)
    (h2 : ¬ "workflow_registry_t* registry = workflow_registry_create(\"".data <+: s) :
    runMatch pattern1 s = none := by
  cases hv : runMatch pattern1 s with
  | none => rfl
  | some v =>
    rw [runMatch] at hv
    rcases p1_some_pre hv with h | h
    · exact absurd h h1
    · exact absurd h h2

theorem p2_none {s : List Char} (h : ¬ "if (!registry) \x7b".data <+: s) :
    runMatch pattern2 s = none := by
  cases hv : runMatch pattern2 s with
  | none => rfl
  | some v => rw [runMatch] at hv; exact absurd (p2_some_pre hv) h

theorem p3_none {s : List Char}
    (h : ¬ "int result = workflow_registry_load(registry);".data <+: s) :
    runMatch pattern3 s = none := by
  cases hv : runMatch pattern3 s with
  | none => rfl
  | some v => rw [runMatch] at hv; exact absurd (p3_some_pre hv) h

theorem p4_none {s : List Char}
    (h : ¬ "workflow_registry_destroy(registry);".data <+: s) :
    runMatch pattern4 s = none := by
  cases hv : runMatch pattern4 s with
  | none => rfl
  | some v => rw [runMatch] at hv; exact absurd (p4_some_pre hv) h

theorem p1_none_cons {c : Char} {s : List Char} (h1 : c ≠ '/') (h2 : c ≠ 'w') :
    runMatch pattern1 (c :: s) = none := by
  apply p1_none
  · intro hp
    rw [show "/* Load registry */".data = '/' :: "* Load registry */".data from rfl] at hp
    exact h1 ((List.cons_prefix_cons.1 hp).1).symm
  · intro hp
    rw [show "workflow_registry_t* registry = workflow_registry_create(\"".data =
      'w' :: "orkflow_registry_t* registry = workflow_registry_create(\"".data from rfl] at hp
    exact h2 ((List.cons_prefix_cons.1 hp).1).symm

theorem p2_none_cons {c : Char} {s : List Char} (h : c ≠ 'i') :
    runMatch pattern2 (c :: s) = none := by
  apply p2_none
  intro hp
  rw [show "if (!registry) \x7b".data = 'i' :: "f (!registry) \x7b".data from rfl] at hp
  exact h ((List.cons_prefix_cons.1 hp).1).symm

theorem p3_none_cons {c : Char} {s : List Char} (h : c ≠ 'i') :
    runMatch pattern3 (c :: s) = none := by
  apply p3_none
  intro hp
  rw [show "int result = workflow_registry_load(registry);".data =
    'i' :: "nt result = workflow_registry_load(registry);".data from rfl] at hp
  exact h ((List.cons_prefix_cons.1 hp).1).symm

theorem p4_none_cons {c : Char} {s : List Char} (h : c ≠ 'w') :
    runMatch pattern4 (c :: s) = none := by
  apply p4_none
  intro hp
  rw [show "workflow_registry_destroy(registry);".data =
    'w' :: "orkflow_registry_destroy(registry);".data from rfl] at hp
  exact h ((List.cons_prefix_cons.1 hp).1).symm

theorem rule4_other_ident (id : List Char) (hne : id ≠ "registry".data)
    (hid : ∀ c ∈ id, isIdentChar c = true) :
    subAll pattern4 tmpl4 ("workflow_registry_destroy(".data ++ (id ++ ");".data)) =
      "workflow_registry_destroy(".data ++ (id ++ ");".data) := by
  apply subAll_id
  intro s' hs' hne'
  apply p4_none
  rcases suffix_append_cases ((List.mem_tails _ _).1 hs') with h | ⟨x', hx', hxne, rfl⟩
  · rcases suffix_append_cases h with h2 | ⟨id', hid', hidne, rfl⟩
    · intro hp
      have hl := hp.length_le
      have hs2 := h2.length_le
      rw [show ("workflow_registry_destroy(registry);".data).length = 36 from by decide] at hl
      rw [show ((");".data : List Char)).length = 2 from by decide] at hs2
      omega
    · rw [show "workflow_registry_destroy(registry);".data =
        "workflow_registry_destroy".data ++ ('(' :: "registry);".data) from by decide]
      exact identChunk_refute "workflow_registry_destroy".data id' (by decide)
        (fun c hc => hid c (hid'.subset hc)) (by decide) (by decide) (Or.inl (by decide))
  · by_cases hful : x' = "workflow_registry_destroy(".data
    · subst hful
      rw [show "workflow_registry_destroy(registry);".data =
        "workflow_registry_destroy(".data ++ ("registry".data ++ (')' :: ";".data))
        from by decide]
      rw [List.prefix_append_right_inj]
      exact identChunk_refute "registry".data id (by decide) hid (by decide) (by decide)
        (Or.inr hne)
    · have hdec : ∀ d ∈ ("workflow_registry_destroy(".data).tails,
          d = "workflow_registry_destroy(".data ∨ d = [] ∨
            misAt "workflow_registry_destroy(registry);".data d = true := by decide
      rcases hdec x' ((List.mem_tails _ _).2 hx') with h | h | h
      · exact absurd h hful
      · exact absurd h hxne
      · exact misAt_sound h _

theorem rule1_other_ident (id : List Char) (hne : id ≠ "registry".data)
    (hid : ∀ c ∈ id, isIdentChar c = true) :
    subAll pattern1 tmpl1
        ("workflow_registry_t* ".data ++ (id ++ " = workflow_registry_create(\"path\");".data)) =
      "workflow_registry_t* ".data ++ (id ++ " = workflow_registry_create(\"path\");".data) := by
  apply subAll_id
  intro s' hs' hne'
  rcases suffix_append_cases ((List.mem_tails _ _).1 hs') with h | ⟨x', hx', hxne, rfl⟩
  · rcases suffix_append_cases h with h2 | ⟨id', hid', hidne, rfl⟩
    · exact occFree_sound (by decide) s' ((List.mem_tails _ _).2 h2) hne'
    · apply p1_none
      · exact identChunk_refute [] id' (by decide) (fun c hc => hid c (hid'.subset hc))
          (by decide) (by decide) (Or.inl (by decide))
      · rw [show "workflow_registry_t* registry = workflow_registry_create(\"".data =
          "workflow_registry_t".data ++
            ('*' :: " registry = workflow_registry_create(\"".data) from by decide]
        exact identChunk_refute "workflow_registry_t".data id' (by decide)
          (fun c hc => hid c (hid'.subset hc)) (by decide) (by decide) (Or.inl (by decide))
  · apply p1_none
    · by_cases hful : x' = "workflow_registry_t* ".data
      · subst hful
        exact misAt_sound (by decide) _
      · have hdec : ∀ d ∈ ("workflow_registry_t* ".data).tails,
            d = "workflow_registry_t* ".data ∨ d = [] ∨
              misAt "/* Load registry */".data d = true := by decide
        rcases hdec x' ((List.mem_tails _ _).2 hx') with h | h | h
        · exact absurd h hful
        · exact absurd h hxne
        · exact misAt_sound h _
    · by_cases hful : x' = "workflow_registry_t* ".data
      · subst hful
        rw [show "workflow_registry_t* registry = workflow_registry_create(\"".data =
          "workflow_registry_t* ".data ++
            ("registry".data ++ (' ' :: "= workflow_registry_create(\"".data)) from by decide]
        rw [List.prefix_append_right_inj]
        exact identChunk_refute "registry".data id (by decide) hid (by decide) (by decide)
          (Or.inr hne)
      · have hdec : ∀ d ∈ ("workflow_registry_t* ".data).tails,
            d = "workflow_registry_t* ".data ∨ d = [] ∨
              misAt "workflow_registry_t* registry = workflow_registry_create(\"".data d =
                true := by decide
        rcases hdec x' ((List.mem_tails _ _).2 hx') with h | h | h
        · exact absurd h hful
        · exact absurd h hxne
        · exact misAt_sound h _

theorem rule2_other_ident (id : List Char) (hne : id ≠ "registry".data)
    (hid : ∀ c ∈ id, isIdentChar c = true) :
    subAll pattern2 tmpl2
        ("if (!".data ++
          (id ++
            ") \x7b\n    http_response_set_error(resp, HTTP_STATUS_SERVER_ERROR, \"Failed to create registry\");\n    return E_SYSTEM_MEMORY;\n\x7d".data)) =
      "if (!".data ++
        (id ++
          ") \x7b\n    http_response_set_error(resp, HTTP_STATUS_SERVER_ERROR, \"Failed to create registry\");\n    return E_SYSTEM_MEMORY;\n\x7d".data) := by
  apply subAll_id
  intro s' hs' hne'
  rcases suffix_append_cases ((List.mem_tails _ _).1 hs') with h | ⟨x', hx', hxne, rfl⟩
  · rcases suffix_append_cases h with h2 | ⟨id', hid', hidne, rfl⟩
    · exact occFree_sound (by decide) s' ((List.mem_tails _ _).2 h2) hne'
    · apply p2_none
      rw [show "if (!registry) \x7b".data =
        "if".data ++ (' ' :: "(!registry) \x7b".data) from by decide]
      exact identChunk_refute "if".data id' (by decide)
        (fun c hc => hid c (hid'.subset hc)) (by decide) (by decide) (Or.inl (by decide))
  · apply p2_none
    by_cases hful : x' = "if (!".data
    · subst hful
      rw [show "if (!registry) \x7b".data =
        "if (!".data ++ ("registry".data ++ (')' :: " \x7b".data)) from by decide]
      rw [List.prefix_append_right_inj]
      exact identChunk_refute "registry".data id (by decide) hid (by decide) (by decide)
        (Or.inr hne)
    · have hdec : ∀ d ∈ ("if (!".data).tails,
          d = "if (!".data ∨ d = [] ∨ misAt "if (!registry) \x7b".data d = true := by decide
      rcases hdec x' ((List.mem_tails _ _).2 hx') with h | h | h
      · exact absurd h hful
      · exact absurd h hxne
      · exact misAt_sound h _

theorem rule3_other_ident (id : List Char) (hne : id ≠ "registry".data)
    (hid : ∀ c ∈ id, isIdentChar c = true) :
    subAll pattern3 tmpl3
        ("int result = workflow_registry_load(".data ++
          (id ++
            (");\n    if (result != ARGO_SUCCESS && result != E_SYSTEM_FILE) \x7b\n        workflow_registry_destroy(".data ++
              (id ++
                ");\n        http_response_set_error(resp, \"x\");\n        return result;\n    \x7d\n".data)))) =
      "int result = workflow_registry_load(".data ++
        (id ++
          (");\n    if (result != ARGO_SUCCESS && result != E_SYSTEM_FILE) \x7b\n        workflow_registry_destroy(".data ++
            (id ++
              ");\n        http_response_set_error(resp, \"x\");\n        return result;\n    \x7d\n".data))) := by
  apply subAll_id
  intro s' hs' hne'
  rcases suffix_append_cases ((List.mem_tails _ _).1 hs') with h | ⟨x', hx', hxne, rfl⟩
  · rcases suffix_append_cases h with h2 | ⟨id', hid', hidne, rfl⟩
    · rcases suffix_append_cases h2 with h3 | ⟨m', hm', hmne, rfl⟩
      · rcases suffix_append_cases h3 with h4 | ⟨id'', hid'', hidne2, rfl⟩
        · exact occFree_sound (by decide) s' ((List.mem_tails _ _).2 h4) hne'
        · apply p3_none
          rw [show "int result = workflow_registry_load(registry);".data =
            "int".data ++ (' ' :: "result = workflow_registry_load(registry);".data)
            from by decide]
          exact identChunk_refute "int".data id'' (by decide)
            (fun c hc => hid c (hid''.subset hc)) (by decide) (by decide)
            (Or.inl (by decide))
      · apply p3_none
        have hdec : ∀ d ∈ ((");\n    if (result != ARGO_SUCCESS && result != E_SYSTEM_FILE) \x7b\n        workflow_registry_destroy(".data : List Char)).tails,
            d = [] ∨ misAt "int result = workflow_registry_load(registry);".data d =
              true := by decide
        rcases hdec m' ((List.mem_tails _ _).2 hm') with h | h
        · exact absurd h hmne
        · exact misAt_sound h _
    · apply p3_none
      rw [show "int result = workflow_registry_load(registry);".data =
        "int".data ++ (' ' :: "result = workflow_registry_load(registry);".data)
        from by decide]
      exact identChunk_refute "int".data id' (by decide)
        (fun c hc => hid c (hid'.subset hc)) (by decide) (by decide) (Or.inl (by decide))
  · apply p3_none
    by_cases hful : x' = "int result = workflow_registry_load(".data
    · subst hful
      rw [show "int result = workflow_registry_load(registry);".data =
        "int result = workflow_registry_load(".data ++
          ("registry".data ++ (')' :: ";".data)) from by decide]
      rw [List.prefix_append_right_inj]
      exact identChunk_refute "registry".data id (by decide) hid (by decide) (by decide)
        (Or.inr hne)
    · have hdec : ∀ d ∈ ("int result = workflow_registry_load(".data).tails,
          d = "int result = workflow_registry_load(".data ∨ d = [] ∨
            misAt "int result = workflow_registry_load(registry);".data d = true := by
        decide
      rcases hdec x' ((List.mem_tails _ _).2 hx') with h | h | h
      · exact absurd h hful
      · exact absurd h hxne
      · exact misAt_sound h _

theorem migrateL_id_of_occFree {s : List Char}
    (h1 : occFree pattern1 s = true) (h2 : occFree pattern2 s = true)
    (h3 : occFree pattern3 s = true) (h4 : occFree pattern4 s = true) :
    migrateL s = s := by
  rw [migrateL, subAll_of_occFree h1, subAll_of_occFree h2, subAll_of_occFree h3,
    subAll_of_occFree h4]

theorem subAll_match0 {r : RE} {t : List TmplItem} {s rem : List Char} {g : Groups}
    (h : runMatch r s = some (rem, g)) (hl : rem.length < s.length) :
    subAll r t s = applyTmpl t g ++ subAll r t rem := by
  cases s with
  | nil => simp at hl
  | cons c rest => exact subAll_cons_match h (by simpa using hl)

theorem p1_match_decl (arg tail : List Char) (hnz : arg ≠ [])
    (hq : ∀ c ∈ arg, (decide (c ≠ '\"') : Bool) = true) :
    runMatch pattern1 (declL arg ++ tail) = some (tail, g0) := by
  have hshape : declL arg ++ tail = declHead ++ (arg ++ ('\"' :: (");".data ++ tail))) := by
    simp [declL, List.append_assoc]
  rw [hshape, runMatch, pattern1, matchRE_seq]
  rw [matchRE_opt_of_none]
  · rw [matchRE_seq, matchRE_lit]
    show matchLit declHead (declHead ++ _) _ _ = _
    rw [matchLit_app, matchRE_seq]
    refine plus_full hq hnz (by exact rfl) ?_
    rw [matchRE_lit]
    show matchLit "\");".data ("\");".data ++ tail) _ _ = _
    rw [matchLit_app]
  · rw [matchRE_grp, matchRE_seq, matchRE_lit]
    exact matchLit_eq_none (misAt_sound (by decide) _) _ _

theorem p2_match_block (w1 w2 w3 tail : List Char)
    (hw1 : ∀ c ∈ w1, isWsChar c = true) (hn1 : w1 ≠ [])
    (hw2 : ∀ c ∈ w2, isWsChar c = true) (hn2 : w2 ≠ [])
    (hw3 : ∀ c ∈ w3, isWsChar c = true) (hn3 : w3 ≠ []) :
    runMatch pattern2 (blockB w1 w2 w3 ++ tail) =
      some (tail, setGrp (setGrp (setGrp g0 1 w1) 2 w2) 3 w3) := by
  have hshape : blockB w1 w2 w3 ++ tail =
      "if (!registry) \x7b".data ++
        (w1 ++
          ("http_response_set_error(resp, HTTP_STATUS_SERVER_ERROR, \"Failed to create registry\");".data ++
            (w2 ++ ("return E_SYSTEM_MEMORY;".data ++ (w3 ++ ("\x7d".data ++ tail)))))) := by
    simp [blockB, List.append_assoc]
  rw [hshape, runMatch, pattern2, matchRE_seq, matchRE_lit, matchLit_app, matchRE_seq,
    matchRE_grp, wsP_run]
  refine plus_full hw1 hn1 (by exact rfl) ?_
  rw [take_consumed, matchRE_seq, matchRE_lit, matchLit_app, matchRE_seq, matchRE_grp]
  refine plus_full hw2 hn2 (by exact rfl) ?_
  rw [take_consumed, matchRE_seq, matchRE_lit, matchLit_app, matchRE_seq, matchRE_grp]
  refine plus_full hw3 hn3 (by exact rfl) ?_
  rw [take_consumed, matchRE_lit, matchLit_app]

theorem subAll_skip_spaces {r : RE} {t : List TmplItem} {y : List Char} (n : Nat)
    (hhead : ∀ s, runMatch r (' ' :: s) = none) :
    subAll r t (spacesN n ++ y) = spacesN n ++ subAll r t y := by
  apply subAll_skip
  intro x' hx' hne
  have hsub : x' ⊆ spacesN n := ((List.mem_tails _ _).1 hx').sublist.subset
  cases x' with
  | nil => exact absurd rfl hne
  | cons c x'' =>
    have hc : c = ' ' := List.eq_of_mem_replicate (hsub (by simp))
    rw [hc, List.cons_append]
    exact hhead _

end Migrate

namespace Migrate

set_option maxRecDepth 40000

/-- C1: on the minimal end-to-end document, the rewrite replaces line 1
with the fixed lock/reassign block of Rule A, replaces the null-check body
per Rule B (a mutex unlock, the message "Registry not initialized" and
return code E_INVALID_STATE), and replaces the final destroy call with a
mutex unlock call. -/
theorem claim1_end_to_end : migrate_endpoint specDoc = specOut := by decide

/-- C2: an input in which none of the four patterns matches at any position
is returned unchanged by the rewrite. -/
theorem claim2_no_op {s : List Char}
    (h1 : occFree pattern1 s = true) (h2 : occFree pattern2 s = true)
    (h3 : occFree pattern3 s = true) (h4 : occFree pattern4 s = true) :
    migrateL s = s :=
  migrateL_id_of_occFree h1 h2 h3 h4

/-- Witness for C2 at a concrete pattern-free input. -/
theorem claim2_no_op_witness :
    occFree pattern1 "return ARGO_SUCCESS;\n".data = true ∧
      occFree pattern2 "return ARGO_SUCCESS;\n".data = true ∧
      occFree pattern3 "return ARGO_SUCCESS;\n".data = true ∧
      occFree pattern4 "return ARGO_SUCCESS;\n".data = true ∧
      migrateL "return ARGO_SUCCESS;\n".data = "return ARGO_SUCCESS;\n".data :=
  ⟨by decide, by decide, by decide, by decide,
    claim2_no_op (by decide) (by decide) (by decide) (by decide)⟩

/-- C3: on an already-migrated document — one containing Rule D's
replacement text and no occurrence of any of the four original patterns —
the rewrite is idempotent. -/
theorem claim3_idempotent {s : List Char} (hmig : ruleDText <:+: s)
    (h1 : occFree pattern1 s = true) (h2 : occFree pattern2 s = true)
    (h3 : occFree pattern3 s = true) (h4 : occFree pattern4 s = true) :
    migrateL (migrateL s) = migrateL s := by
  rw [migrateL_id_of_occFree h1 h2 h3 h4, migrateL_id_of_occFree h1 h2 h3 h4]

/-- Witness for C3 at the migrated form of the minimal document. -/
theorem claim3_idempotent_witness :
    (ruleDText <:+: specOut.data ∧
        occFree pattern1 specOut.data = true ∧ occFree pattern2 specOut.data = true ∧
        occFree pattern3 specOut.data = true ∧ occFree pattern4 specOut.data = true) ∧
      migrateL (migrateL specOut.data) = migrateL specOut.data :=
  ⟨⟨by decide, by decide, by decide, by decide, by decide⟩,
    claim3_idempotent (by decide) (by decide) (by decide) (by decide) (by decide)⟩

/-- C7: with an argument count other than one the entry point prints a
usage line and exits with status 1 without touching any file; with exactly
one argument it reads the file, writes back the rewritten content, prints
the confirmation line and exits with status 0. -/
theorem claim7_cli (prog : String) (args : List String) (content : String) :
    (args.length ≠ 1 →
      mainModel prog args content =
        ⟨["Usage: " ++ prog ++ " <file>"], 1, false, none⟩) ∧
      (∀ path, args = [path] →
        mainModel prog args content =
          ⟨["Migrated " ++ path], 0, true, some (migrate_endpoint content)⟩) := by
  constructor
  · intro hne
    match args, hne with
    | [], _ => rfl
    | [a], h => exact absurd rfl h
    | a :: b :: t, _ => rfl
  · rintro path rfl
    rfl

/-- C10: when Rule C's block appears with both optional parts absent, the
rule deletes the block if and only if the closing brace is followed by at
least two whitespace characters, and the deletion also consumes the whole
whitespace run up to the next non-whitespace character `c`.  The
whitespace run after the brace is `w ++ [z]` (length at least two exactly
when `w ≠ []`); the third conjunct covers the run of length zero, where
the brace is directly followed by the non-whitespace character. -/
theorem claim10_strict_shape (w : List Char) (z c : Char) (rest : List Char)
    (hw : ∀ d ∈ w, isWsChar d = true) (hz : isWsChar z = true) (hc : isWsChar c = false)
    (hcm : ¬ "/* Cleanup dead workflows after loading */".data <+: c :: rest)
    (hcall : ¬ "workflow_registry_cleanup_dead_workflows(registry);".data <+: c :: rest)
    (htail : ∀ s' ∈ (c :: rest).tails, s' ≠ [] → (runMatch pattern3 s').isNone = true) :
    (w ≠ [] →
      subAll pattern3 tmpl3 (blockNC ++ (w ++ z :: c :: rest)) = c :: rest) ∧
      (w = [] →
        subAll pattern3 tmpl3 (blockNC ++ (w ++ z :: c :: rest)) =
          blockNC ++ (w ++ z :: c :: rest)) ∧
      subAll pattern3 tmpl3 (blockNC ++ (c :: rest)) = blockNC ++ (c :: rest) := by
  refine ⟨?_, ?_, ?_⟩
  · intro hwn
    have hg := p3_match_blockNC w z c rest hw hz hc hwn hcm hcall
    have hlen : (c :: rest).length < (blockNC ++ (w ++ z :: c :: rest)).length := by
      have hb : 0 < blockNC.length := by decide
      simp [List.length_append]
      omega
    rw [subAll_match0 hg hlen]
    show subAll pattern3 tmpl3 (c :: rest) = c :: rest
    apply subAll_id
    intro s' hs' hne
    exact Option.isNone_iff_eq_none.1 (htail s' hs' hne)
  · rintro rfl
    rw [List.nil_append]
    apply subAll_id
    intro s' hs' hne
    rcases suffix_append_cases ((List.mem_tails _ _).1 hs') with h | ⟨x', hx', hxne, rfl⟩
    · rcases List.suffix_cons_iff.1 h with rfl | h2
      · exact p3_none_cons (by intro he; rw [he] at hz; exact absurd hz (by decide))
      · exact Option.isNone_iff_eq_none.1
          (htail s' ((List.mem_tails _ _).2 h2) hne)
    · by_cases hful : x' = blockNC
      · subst hful
        exact p3_nomatch_blockNC z c rest hz hc hcm
      · have hdec : ∀ d ∈ blockNC.tails, d = blockNC ∨ d = [] ∨
            misAt "int result = workflow_registry_load(registry);".data d = true := by decide
        rcases hdec x' ((List.mem_tails _ _).2 hx') with h | h | h
        · exact absurd h hful
        · exact absurd h hxne
        · exact p3_none (misAt_sound h _)
  · apply subAll_id
    intro s' hs' hne
    rcases suffix_append_cases ((List.mem_tails _ _).1 hs') with h | ⟨x', hx', hxne, rfl⟩
    · exact Option.isNone_iff_eq_none.1 (htail s' ((List.mem_tails _ _).2 h) hne)
    · by_cases hful : x' = blockNC
      · subst hful
        exact p3_nomatch_blockNC0 c rest hc
      · have hdec : ∀ d ∈ blockNC.tails, d = blockNC ∨ d = [] ∨
            misAt "int result = workflow_registry_load(registry);".data d = true := by decide
        rcases hdec x' ((List.mem_tails _ _).2 hx') with h | h | h
        · exact absurd h hful
        · exact absurd h hxne
        · exact p3_none (misAt_sound h _)

/-- C9: the four rewrite rules match only the literal variable name
`registry`: when the corresponding construct — declaration, null check,
load block or destroy call — spells the registry variable with any other
identifier, the corresponding rule leaves it unchanged. -/
theorem claim9_only_registry (id : List Char) (hne : id ≠ "registry".data)
    (hid : ∀ c ∈ id, isIdentChar c = true) :
    subAll pattern1 tmpl1
        ("workflow_registry_t* ".data ++
          (id ++ " = workflow_registry_create(\"path\");".data)) =
      "workflow_registry_t* ".data ++ (id ++ " = workflow_registry_create(\"path\");".data) ∧
    subAll pattern2 tmpl2
        ("if (!".data ++
          (id ++
            ") \x7b\n    http_response_set_error(resp, HTTP_STATUS_SERVER_ERROR, \"Failed to create registry\");\n    return E_SYSTEM_MEMORY;\n\x7d".data)) =
      "if (!".data ++
        (id ++
          ") \x7b\n    http_response_set_error(resp, HTTP_STATUS_SERVER_ERROR, \"Failed to create registry\");\n    return E_SYSTEM_MEMORY;\n\x7d".data) ∧
    subAll pattern3 tmpl3
        ("int result = workflow_registry_load(".data ++
          (id ++
            (");\n    if (result != ARGO_SUCCESS && result != E_SYSTEM_FILE) \x7b\n        workflow_registry_destroy(".data ++
              (id ++
                ");\n        http_response_set_error(resp, \"x\");\n        return result;\n    \x7d\n".data)))) =
      "int result = workflow_registry_load(".data ++
        (id ++
          (");\n    if (result != ARGO_SUCCESS && result != E_SYSTEM_FILE) \x7b\n        workflow_registry_destroy(".data ++
            (id ++
              ");\n        http_response_set_error(resp, \"x\");\n        return result;\n    \x7d\n".data))) ∧
    subAll pattern4 tmpl4 ("workflow_registry_destroy(".data ++ (id ++ ");".data)) =
      "workflow_registry_destroy(".data ++ (id ++ ");".data) :=
  ⟨rule1_other_ident id hne hid, rule2_other_ident id hne hid,
    rule3_other_ident id hne hid, rule4_other_ident id hne hid⟩

/-- Witness for C9 at the identifier `reg`. -/
theorem claim9_only_registry_witness :
    ("reg".data ≠ "registry".data ∧ ∀ c ∈ "reg".data, isIdentChar c = true) ∧
      subAll pattern4 tmpl4
          ("workflow_registry_destroy(".data ++ ("reg".data ++ ");".data)) =
        "workflow_registry_destroy(".data ++ ("reg".data ++ ");".data) :=
  ⟨⟨by decide, by decide⟩,
    (claim9_only_registry "reg".data (by decide) (by decide)).2.2.2⟩

/-- Witness for C10: a two-character whitespace run leads to deletion that
consumes the whole run, while zero whitespace leaves the block alone. -/
theorem claim10_strict_shape_witness :
    ((∀ d ∈ "\n".data, isWsChar d = true) ∧ isWsChar '\n' = true ∧ isWsChar 'X' = false ∧
        ¬ "/* Cleanup dead workflows after loading */".data <+: ['X'] ∧
        ¬ "workflow_registry_cleanup_dead_workflows(registry);".data <+: ['X'] ∧
        (∀ s' ∈ (['X'] : List Char).tails, s' ≠ [] →
          (runMatch pattern3 s').isNone = true)) ∧
      ("\n".data ≠ [] →
        subAll pattern3 tmpl3 (blockNC ++ ("\n".data ++ '\n' :: 'X' :: [])) = ['X']) ∧
      subAll pattern3 tmpl3 (blockNC ++ ('X' :: [])) = blockNC ++ ('X' :: []) :=
  ⟨⟨by decide, by decide, by decide, by decide, by decide, by decide⟩,
    (claim10_strict_shape "\n".data '\n' 'X' [] (by decide) (by decide) (by decide)
      (by decide) (by decide) (by decide)).1,
    (claim10_strict_shape "\n".data '\n' 'X' [] (by decide) (by decide) (by decide)
      (by decide) (by decide) (by decide)).2.2⟩

/-- Pattern 3 matches at the start of the full block and consumes exactly
the block, whatever follows it. -/
theorem p3_match_blockC (post : List Char) :
    ∃ g, runMatch pattern3 (blockC ++ post) = some (post, g) := ⟨_, rfl⟩

/-- C6: an input consisting of Rule C's full block verbatim (all optional
parts present) inside arbitrary surrounding text in which no rule matches
elsewhere is rewritten to the surrounding text alone: the block is removed
entirely and every character outside it is unchanged. -/
theorem claim6_frame (pre post : List Char)
    (h1 : occFree pattern1 (pre ++ (blockC ++ post)) = true)
    (h2 : occFree pattern2 (pre ++ (blockC ++ post)) = true)
    (h3 : ∀ s' ∈ (pre ++ (blockC ++ post)).tails, s' ≠ [] → s' ≠ blockC ++ post →
      (runMatch pattern3 s').isNone = true)
    (h4 : occFree pattern4 (pre ++ post) = true) :
    migrateL (pre ++ (blockC ++ post)) = pre ++ post := by
  have hpre : ∀ x' ∈ pre.tails, x' ≠ [] →
      runMatch pattern3 (x' ++ (blockC ++ post)) = none := by
    intro x' hx' hne
    apply Option.isNone_iff_eq_none.1
    apply h3
    · apply (List.mem_tails _ _).2
      obtain ⟨t, ht⟩ := (List.mem_tails _ _).1 hx'
      exact ⟨t, by rw [← List.append_assoc, ht]⟩
    · intro heq
      exact hne (List.append_eq_nil.1 heq).1
    · intro he
      have hlen := congrArg List.length he
      rw [List.length_append] at hlen
      cases x' with
      | nil => exact hne rfl
      | cons a b => simp at hlen
  have e3 : subAll pattern3 tmpl3 (pre ++ (blockC ++ post)) = pre ++ post := by
    rw [subAll_skip hpre]
    congr 1
    obtain ⟨g, hg⟩ := p3_match_blockC post
    have hlen : post.length < (blockC ++ post).length := by
      rw [List.length_append]
      have hb : 0 < blockC.length := by decide
      omega
    rw [subAll_match0 hg hlen]
    show subAll pattern3 tmpl3 post = post
    apply subAll_id
    intro s' hs' hne
    apply Option.isNone_iff_eq_none.1
    apply h3
    · apply (List.mem_tails _ _).2
      exact ((List.mem_tails _ _).1 hs').trans ⟨pre ++ blockC, by rw [List.append_assoc]⟩
    · exact hne
    · intro he
      have h1l := ((List.mem_tails _ _).1 hs').length_le
      rw [he, List.length_append] at h1l
      have hb : 0 < blockC.length := by decide
      omega
  rw [migrateL, subAll_of_occFree h1, subAll_of_occFree h2, e3, subAll_of_occFree h4]

/-- Witness for C6 at concrete surrounding text. -/
theorem claim6_frame_witness :
    (occFree pattern1 (c6pre ++ (blockC ++ c6post)) = true ∧
        occFree pattern2 (c6pre ++ (blockC ++ c6post)) = true ∧
        (∀ s' ∈ (c6pre ++ (blockC ++ c6post)).tails, s' ≠ [] → s' ≠ blockC ++ c6post →
          (runMatch pattern3 s').isNone = true) ∧
        occFree pattern4 (c6pre ++ c6post) = true) ∧
      migrateL (c6pre ++ (blockC ++ c6post)) = c6pre ++ c6post :=
  ⟨⟨by decide, by decide, by decide, by decide⟩,
    claim6_frame c6pre c6post (by decide) (by decide) (by decide) (by decide)⟩

/-- Counterexample to C4 as stated: in an input block whose three captured
whitespace spans differ, the span before the return statement of the
replacement is the first captured span, not the second one (the claimed
output with the second span reused at its corresponding position is not
produced): replacement2 back-references group 1 where group 2 was captured. -/
theorem claim4_counterexample :
    subAll pattern2 tmpl2 (blockB "\n    ".data "\n  ".data "\n".data) =
        replB "\n    ".data "\n".data ∧
      replB "\n    ".data "\n".data ≠
        "if (!registry) \x7b\n    pthread_mutex_unlock(&g_api_daemon->workflow_registry_lock);\n    http_response_set_error(resp, HTTP_STATUS_SERVER_ERROR, \"Registry not initialized\");\n  return E_INVALID_STATE;\n\x7d".data :=
  ⟨by decide, by decide⟩

/-- C4 amended: when Rule B's block matches, the replacement reuses the
first and third captured whitespace spans verbatim (the first span after
the opening brace, after the inserted unlock line, and before the return
line; the third before the closing brace), while the second captured span
is discarded: the first span is used in its place before the return line. -/
theorem claim4_amended (w1 w2 w3 tail : List Char)
    (hw1 : ∀ c ∈ w1, isWsChar c = true) (hn1 : w1 ≠ [])
    (hw2 : ∀ c ∈ w2, isWsChar c = true) (hn2 : w2 ≠ [])
    (hw3 : ∀ c ∈ w3, isWsChar c = true) (hn3 : w3 ≠ []) :
    subAll pattern2 tmpl2 (blockB w1 w2 w3 ++ tail) =
      replB w1 w3 ++ subAll pattern2 tmpl2 tail := by
  have hm := p2_match_block w1 w2 w3 tail hw1 hn1 hw2 hn2 hw3 hn3
  have hl : tail.length < (blockB w1 w2 w3 ++ tail).length := by
    rw [List.length_append]
    have h0 : 0 < (blockB w1 w2 w3).length := by
      rw [blockB, List.length_append]
      have h16 : ("if (!registry) \x7b".data).length = 16 := by decide
      omega
    omega
  rw [subAll_match0 hm hl]
  congr 1

/-- Witness for the amended C4 at concrete differing spans. -/
theorem claim4_amended_witness :
    ((∀ c ∈ "\n ".data, isWsChar c = true) ∧ "\n ".data ≠ ([] : List Char) ∧
        (∀ c ∈ "\n\t".data, isWsChar c = true) ∧ "\n\t".data ≠ ([] : List Char) ∧
        (∀ c ∈ "\n".data, isWsChar c = true) ∧ "\n".data ≠ ([] : List Char)) ∧
      subAll pattern2 tmpl2 (blockB "\n ".data "\n\t".data "\n".data ++ "Z".data) =
        replB "\n ".data "\n".data ++ subAll pattern2 tmpl2 "Z".data :=
  ⟨⟨by decide, by decide, by decide, by decide, by decide, by decide⟩,
    claim4_amended "\n ".data "\n\t".data "\n".data "Z".data
      (by decide) (by decide) (by decide) (by decide) (by decide) (by decide)⟩

/-- Counterexample to C5 as stated: with the empty quoted string as sole
argument the declaration is not rewritten at all (the class `[^"]+`
requires at least one character), so the output is not the fixed
lock/reassign block the claim promises. -/
theorem claim5_counterexample :
    migrateL (declL []) = declL [] ∧ declL [] ≠ replacement1 :=
  ⟨by decide, by decide⟩

/-- C5 amended: Rule A matches the declaration whenever the creation call's
sole argument is a nonempty double-quoted string with no embedded double
quotes (the empty quoted string is not matched), and replaces the
declaration with the fixed three-line lock-and-reassign block. -/
theorem claim5_amended (arg : List Char) (hnz : arg ≠ [])
    (hq : ∀ c ∈ arg, c ≠ '\"') :
    migrateL (declL arg) = replacement1 := by
  have hm : runMatch pattern1 (declL arg) = some ([], g0) := by
    have := p1_match_decl arg [] hnz (fun c hc => decide_eq_true (hq c hc))
    simpa using this
  have hlen : ([] : List Char).length < (declL arg).length := by
    have h1 : (declL arg).length = declHead.length + (arg ++ "\");".data).length :=
      List.length_append _ _
    have h2 : declHead.length = 58 := by decide
    rw [List.length_nil, h1, h2]
    omega
  have e1 : subAll pattern1 tmpl1 (declL arg) = replacement1 := by
    rw [subAll_match0 hm hlen]
    decide
  rw [migrateL, e1]
  decide

/-- Witness for the amended C5 at the argument "path". -/
theorem claim5_amended_witness :
    ("path".data ≠ [] ∧ ∀ c ∈ "path".data, c ≠ '\"') ∧
      migrateL (declL "path".data) = replacement1 :=
  ⟨⟨by decide, by decide⟩, claim5_amended "path".data (by decide) (by decide)⟩

/-- C8: Rule A's replacement uses a fixed four-space indentation for the
inserted mutex-lock and reassignment lines, whatever the indentation of the
matched declaration: for every indentation depth `n` the rewritten document
is the untouched indentation followed by the same fixed block
`replacement1`, whose inserted lines are indented by exactly four spaces. -/
theorem claim8_fixed_indent (n : Nat) :
    migrateL (spacesN n ++ declL "path".data) = spacesN n ++ replacement1 ∧
      "\n    pthread_mutex_lock(&g_api_daemon->workflow_registry_lock);".data <:+:
        replacement1 ∧
      "\n\n    workflow_registry_t* registry = g_api_daemon->workflow_registry;".data <:+:
        replacement1 := by
  refine ⟨?_, by decide, by decide⟩
  have e1 : subAll pattern1 tmpl1 (spacesN n ++ declL "path".data) =
      spacesN n ++ replacement1 := by
    rw [subAll_skip_spaces n (fun s => p1_none_cons (by decide) (by decide))]
    congr 1
  have e2 : subAll pattern2 tmpl2 (spacesN n ++ replacement1) = spacesN n ++ replacement1 := by
    rw [subAll_skip_spaces n (fun s => p2_none_cons (by decide))]
    congr 1
  have e3 : subAll pattern3 tmpl3 (spacesN n ++ replacement1) = spacesN n ++ replacement1 := by
    rw [subAll_skip_spaces n (fun s => p3_none_cons (by decide))]
    congr 1
  have e4 : subAll pattern4 tmpl4 (spacesN n ++ replacement1) = spacesN n ++ replacement1 := by
    rw [subAll_skip_spaces n (fun s => p4_none_cons (by decide))]
    congr 1
  rw [migrateL, e1, e2, e3, e4]

/-- Witness for C7 on concrete invocations. -/
theorem claim7_cli_witness :
    (([] : List String).length ≠ 1 ∧
        mainModel "migrate_registry.py" [] "x" =
          ⟨["Usage: migrate_registry.py <file>"], 1, false, none⟩) ∧
      mainModel "migrate_registry.py" ["api.c"] "x" =
        ⟨["Migrated api.c"], 0, true, some (migrate_endpoint "x")⟩ :=
  ⟨⟨by decide, (claim7_cli "migrate_registry.py" [] "x").1 (by decide)⟩,
    (claim7_cli "migrate_registry.py" ["api.c"] "x").2 "api.c" rfl⟩

end Migrate
